import Mathlib

/-!
Verification of the GIF → ASCII conversion core (src/App.tsx).

The pipeline is embedded shallowly:
  * pixels are RGBA quadruples of naturals (0–255 per channel);
  * the logical canvas is a function from coordinates to pixels, mutated by
    explicit state passing through the frame loop;
  * JavaScript floating-point arithmetic on luminances and aspect ratios is
    modelled with exact rationals, and JavaScript `Math.round` with
    Mathlib's `round` (both round half-way cases up);
  * the browser's canvas scaling (`drawImage` onto a smaller canvas) is an
    external service; it is modelled as an explicit `resample` parameter
    producing the byte array that `getImageData` would return.  The claims
    proved below hold for every such resampling function.
-/

/-- One RGBA pixel; each channel is a byte value 0–255. -/
structure RGBA where
  r : Nat
  g : Nat
  b : Nat
  a : Nat
deriving DecidableEq

/-- The fully transparent pixel produced by `clearRect`. -/
def RGBA.transparent : RGBA := ⟨0, 0, 0, 0⟩

/-- The logical canvas: pixel value at each (x, y) coordinate. -/
def Canvas : Type := Nat → Nat → RGBA

/-- An `ImageData` record: dimensions plus the flat RGBA byte array,
row-major, 4 bytes per pixel, indexed as a function. -/
structure ImageData where
  width : Nat
  height : Nat
  data : Nat → Nat

/-- The fixed character palette, dark to light (`ASCII_CHARS` in App.tsx). -/
def ASCII_CHARS : List Char := ['@', '%', '#', '*', '+', '=', '-', ':', '.', ' ']

/-- Default output width in characters (`DEFAULT_WIDTH` in App.tsx). -/
def DEFAULT_WIDTH : Nat := 80

/-- Relative luminance of an RGB triple (`rgbToLum` in App.tsx). -/
def rgbToLum (r g b : ℚ) : ℚ :=
  2126 / 10000 * r + 7152 / 10000 * g + 722 / 10000 * b

/-- The palette index computed in the pixel loop of `imageDataToAscii`:
`Math.round(lum / 255 * (ASCII_CHARS.length - 1))`. -/
def paletteIndex (r g b : Nat) : ℤ :=
  round (rgbToLum r g b / 255 * ((ASCII_CHARS.length - 1 : Nat) : ℚ))

/-- The body of the pixel loop in `imageDataToAscii` (App.tsx lines 41–47):
transparent pixels map to a space, others to the palette character at
`paletteIndex`.  The default `'?'` of the lookup is never reached for byte
inputs (see `palette_index_safe`). -/
def pixelChar (r g b a alphaThreshold : Nat) : Char :=
  if a < alphaThreshold then ' '
  else ASCII_CHARS.getD (paletteIndex r g b).toNat '?'

/-- `imageDataToAscii` (App.tsx lines 13–52): compute the target grid size,
resample the source raster to it, and map every resampled pixel through the
pixel loop.  `resample` stands for the browser's canvas scaling: given the
source image and the target dimensions it yields the flat byte array that
`getImageData(0, 0, targetWidth, targetHeight)` returns (for positive
requested dimensions that call yields an array of exactly those
dimensions).  This definition models the non-throwing path of the code;
`getImageData` throws `IndexSizeError` when a requested dimension is zero,
a behavior accounted for by `imageDataToAsciiChecked` below. -/
def imageDataToAscii (resample : ImageData → Nat → Nat → Nat → Nat)
    (imgData : ImageData) (width alphaThreshold : Nat) : List (List Char) :=
  let targetWidth := width
  let targetHeight :=
    max 1 (round ((imgData.height : ℚ) / (imgData.width : ℚ) *
      (targetWidth : ℚ) * (1 / 2 : ℚ))).toNat
  let resized : ImageData :=
    ⟨targetWidth, targetHeight, resample imgData targetWidth targetHeight⟩
  (List.range targetHeight).map fun y =>
    (List.range targetWidth).map fun x =>
      let i := (y * targetWidth + x) * 4
      pixelChar (resized.data i) (resized.data (i + 1)) (resized.data (i + 2))
        (resized.data (i + 3)) alphaThreshold

/-- `imageDataToAscii` including the error behavior of the
`ctx.getImageData(0, 0, targetWidth, targetHeight)` call at App.tsx
line 30: that call throws an `IndexSizeError` DOMException when the
requested width or height is zero, so the function then terminates
exceptionally and produces no grid at all.  For nonzero target dimensions
the call succeeds and the result is exactly the grid computed by
`imageDataToAscii` (the earlier steps never throw first: setting a canvas
dimension to 0 is allowed, and `drawImage` with a zero-size destination
rectangle draws nothing without throwing). -/
def imageDataToAsciiChecked (resample : ImageData → Nat → Nat → Nat → Nat)
    (imgData : ImageData) (width alphaThreshold : Nat) :
    Except String (List (List Char)) :=
  let targetWidth := width
  let targetHeight :=
    max 1 (round ((imgData.height : ℚ) / (imgData.width : ℚ) *
      (targetWidth : ℚ) * (1 / 2 : ℚ))).toNat
  if targetWidth = 0 ∨ targetHeight = 0 then
    Except.error "IndexSizeError"
  else
    Except.ok (imageDataToAscii resample imgData width alphaThreshold)

-- Helper lemmas about the luminance and the palette index.

lemma rgbToLum_nonneg (r g b : Nat) : 0 ≤ rgbToLum r g b := by
  unfold rgbToLum
  positivity

lemma rgbToLum_le_255 (r g b : Nat) (hr : r ≤ 255) (hg : g ≤ 255)
    (hb : b ≤ 255) : rgbToLum r g b ≤ 255 := by
  unfold rgbToLum
  have hr' : (r : ℚ) ≤ 255 := by exact_mod_cast hr
  have hg' : (g : ℚ) ≤ 255 := by exact_mod_cast hg
  have hb' : (b : ℚ) ≤ 255 := by exact_mod_cast hb
  nlinarith

lemma paletteIndex_nonneg (r g b : Nat) : 0 ≤ paletteIndex r g b := by
  unfold paletteIndex
  rw [round_eq]
  apply Int.floor_nonneg.mpr
  have h1 : (0 : ℚ) ≤ rgbToLum r g b / 255 * ((ASCII_CHARS.length - 1 : Nat) : ℚ) := by
    apply mul_nonneg
    · exact div_nonneg (rgbToLum_nonneg r g b) (by norm_num)
    · positivity
  linarith

lemma paletteIndex_le_nine (r g b : Nat) (hr : r ≤ 255) (hg : g ≤ 255)
    (hb : b ≤ 255) : paletteIndex r g b ≤ 9 := by
  unfold paletteIndex
  rw [round_eq]
  have hlen : ((ASCII_CHARS.length - 1 : Nat) : ℚ) = 9 := by norm_num [ASCII_CHARS]
  rw [hlen]
  have hlum := rgbToLum_le_255 r g b hr hg hb
  have harg : rgbToLum r g b / 255 * 9 + 1 / 2 ≤ 9 + 1 / 2 := by
    have : rgbToLum r g b / 255 ≤ 1 := by
      rw [div_le_one (by norm_num : (0 : ℚ) < 255)]
      exact hlum
    nlinarith
  calc ⌊rgbToLum r g b / 255 * 9 + 1 / 2⌋ ≤ ⌊(9 : ℚ) + 1 / 2⌋ :=
        Int.floor_le_floor harg
    _ = 9 := by norm_num

lemma paletteIndex_toNat_lt (r g b : Nat) (hr : r ≤ 255) (hg : g ≤ 255)
    (hb : b ≤ 255) : (paletteIndex r g b).toNat < ASCII_CHARS.length := by
  have h9 := paletteIndex_le_nine r g b hr hg hb
  have : (paletteIndex r g b).toNat ≤ 9 := by omega
  simp only [ASCII_CHARS, List.length]
  omega

/-- C3: for a pixel with byte channels whose alpha is at or above the
threshold, the emitted character is the 10-symbol palette `"@%#*+=-:. "`
indexed at `round(((0.2126·R + 0.7152·G + 0.0722·B) / 255) × 9)`, the index
clamped into [0, 9] (the clamp is the identity on byte inputs, so the code's
unclamped lookup agrees with it). -/
theorem luminance_mapper_char (r g b a t : Nat) (hr : r ≤ 255) (hg : g ≤ 255)
    (hb : b ≤ 255) (ha : t ≤ a) :
    pixelChar r g b a t =
      ASCII_CHARS.getD (min 9 (paletteIndex r g b).toNat) '?' ∧
    min 9 (paletteIndex r g b).toNat = (paletteIndex r g b).toNat ∧
    paletteIndex r g b =
      round (rgbToLum r g b / 255 * ((ASCII_CHARS.length - 1 : Nat) : ℚ)) ∧
    ASCII_CHARS.length = 10 := by
  have h9 := paletteIndex_le_nine r g b hr hg hb
  have hmin : min 9 (paletteIndex r g b).toNat = (paletteIndex r g b).toNat := by
    omega
  refine ⟨?_, hmin, rfl, rfl⟩
  rw [hmin]
  unfold pixelChar
  rw [if_neg (by omega)]

/-- Witness for `luminance_mapper_char` at the white opaque pixel. -/
theorem luminance_mapper_char_witness :
    (255 : Nat) ≤ 255 ∧ (16 : Nat) ≤ 255 ∧
    (pixelChar 255 255 255 255 16 =
        ASCII_CHARS.getD (min 9 (paletteIndex 255 255 255).toNat) '?' ∧
      min 9 (paletteIndex 255 255 255).toNat = (paletteIndex 255 255 255).toNat ∧
      paletteIndex 255 255 255 =
        round (rgbToLum 255 255 255 / 255 * ((ASCII_CHARS.length - 1 : Nat) : ℚ)) ∧
      ASCII_CHARS.length = 10) :=
  ⟨by decide, by decide,
    luminance_mapper_char 255 255 255 255 16 (by decide) (by decide) (by decide)
      (by decide)⟩

/-- C5: a pixel whose alpha is strictly below the threshold maps to the
space glyph, and the result does not depend on the RGB channels (the
luminance computation never influences it). -/
theorem transparent_pixel_space (r g b r' g' b' a t : Nat) (h : a < t) :
    pixelChar r g b a t = ' ' ∧
    pixelChar r g b a t = pixelChar r' g' b' a t := by
  unfold pixelChar
  rw [if_pos h, if_pos h]
  exact ⟨rfl, rfl⟩

/-- Witness for `transparent_pixel_space`: alpha 5 is below the default
threshold 16, so two wildly different colors both give a space. -/
theorem transparent_pixel_space_witness :
    (5 : Nat) < 16 ∧
    (pixelChar 0 0 0 5 16 = ' ' ∧ pixelChar 0 0 0 5 16 = pixelChar 255 17 99 5 16) :=
  ⟨by decide, transparent_pixel_space 0 0 0 255 17 99 5 16 (by decide)⟩

/-- C8: the mapping from computed luminance to palette index is monotone:
a triple of no greater luminance never gets a larger palette index. -/
theorem palette_index_monotone (r₁ g₁ b₁ r₂ g₂ b₂ : Nat)
    (h : rgbToLum r₁ g₁ b₁ ≤ rgbToLum r₂ g₂ b₂) :
    paletteIndex r₁ g₁ b₁ ≤ paletteIndex r₂ g₂ b₂ := by
  unfold paletteIndex
  rw [round_eq, round_eq]
  apply Int.floor_le_floor
  have hmul : rgbToLum r₁ g₁ b₁ / 255 * ((ASCII_CHARS.length - 1 : Nat) : ℚ) ≤
      rgbToLum r₂ g₂ b₂ / 255 * ((ASCII_CHARS.length - 1 : Nat) : ℚ) := by
    apply mul_le_mul_of_nonneg_right
    · exact div_le_div_of_nonneg_right h (by norm_num)
    · positivity
  linarith

/-- Witness for `palette_index_monotone`: black is no more luminous than
white, and its palette index is accordingly no larger. -/
theorem palette_index_monotone_witness :
    rgbToLum 0 0 0 ≤ rgbToLum 255 255 255 ∧
    paletteIndex 0 0 0 ≤ paletteIndex 255 255 255 :=
  ⟨by norm_num [rgbToLum],
    palette_index_monotone 0 0 0 255 255 255 (by norm_num [rgbToLum])⟩

/-- C10: for byte channels the computed palette index lies in [0, 9], so the
unclamped palette lookup in the code never reads out of bounds of the
10-character palette. -/
theorem palette_index_safe (r g b : Nat) (hr : r ≤ 255) (hg : g ≤ 255)
    (hb : b ≤ 255) :
    0 ≤ paletteIndex r g b ∧
    (paletteIndex r g b).toNat < ASCII_CHARS.length ∧
    (ASCII_CHARS.get? (paletteIndex r g b).toNat).isSome = true := by
  refine ⟨paletteIndex_nonneg r g b, paletteIndex_toNat_lt r g b hr hg hb, ?_⟩
  rw [List.get?_eq_getElem?, List.getElem?_eq_getElem (paletteIndex_toNat_lt r g b hr hg hb)]
  rfl

/-- Witness for `palette_index_safe` at mid grey. -/
theorem palette_index_safe_witness :
    (128 : Nat) ≤ 255 ∧
    (0 ≤ paletteIndex 128 128 128 ∧
      (paletteIndex 128 128 128).toNat < ASCII_CHARS.length ∧
      (ASCII_CHARS.get? (paletteIndex 128 128 128).toNat).isSome = true) :=
  ⟨by decide, palette_index_safe 128 128 128 (by decide) (by decide) (by decide)⟩

-- Frame compositor and animation assembler (decodeGifFromBytes, App.tsx 84–126).

/-- The placement rectangle of a decoded patch (`f.dims` in gifuct-js
frames): patch width/height and its offset (left, top) in the canvas. -/
structure Dims where
  width : Nat
  height : Nat
  left : Nat
  top : Nat

/-- One decoded patch frame as delivered by the external decoder: optional
flat RGBA patch bytes, placement rectangle, and the GIF disposal tag. -/
structure GifFrame where
  patch : Option (Nat → Nat)
  dims : Dims
  disposalType : Nat

/-- Membership of a coordinate in a placement rectangle. -/
def inRect (d : Dims) (x y : Nat) : Prop :=
  d.left ≤ x ∧ x < d.left + d.width ∧ d.top ≤ y ∧ y < d.top + d.height

instance (d : Dims) (x y : Nat) : Decidable (inRect d x y) := by
  unfold inRect
  infer_instance

/-- `ctx.putImageData(imageData, left, top)`: direct overwrite (no blending)
of the rectangle with the patch bytes; everything else untouched. -/
def putImageData (c : Canvas) (data : Nat → Nat) (d : Dims) : Canvas :=
  fun x y =>
    if inRect d x y then
      let i := ((y - d.top) * d.width + (x - d.left)) * 4
      ⟨data i, data (i + 1), data (i + 2), data (i + 3)⟩
    else c x y

/-- `ctx.clearRect(left, top, width, height)`: set the rectangle fully
transparent; everything else untouched. -/
def clearRect (c : Canvas) (d : Dims) : Canvas :=
  fun x y => if inRect d x y then RGBA.transparent else c x y

/-- The patch-write step of the loop body (App.tsx 103–107): if the frame
carries pixel data, draw it at its offset; otherwise leave the canvas. -/
def drawFrame (c : Canvas) (f : GifFrame) : Canvas :=
  match f.patch with
  | some data => putImageData c data f.dims
  | none => c

/-- The disposal step of the loop body (App.tsx 115–122): policies 2 and 3
both clear the frame's rectangle; anything else leaves the canvas. -/
def disposeFrame (c : Canvas) (f : GifFrame) : Canvas :=
  if f.disposalType = 2 then clearRect c f.dims
  else if f.disposalType = 3 then clearRect c f.dims
  else c

/-- `ctx.getImageData(0, 0, W, H)`: the full-canvas snapshot as an
`ImageData` byte array, row-major, 4 bytes per pixel. -/
def canvasImageData (c : Canvas) (W H : Nat) : ImageData :=
  ⟨W, H, fun i =>
    let p := c ((i / 4) % W) ((i / 4) / W)
    match i % 4 with
    | 0 => p.r
    | 1 => p.g
    | 2 => p.b
    | _ => p.a⟩

/-- The frame loop of `decodeGifFromBytes` (App.tsx 100–123), with the
canvas threaded explicitly: draw the patch, snapshot the whole canvas and
convert it to a character grid, then apply disposal and continue. -/
def decodeLoop (resample : ImageData → Nat → Nat → Nat → Nat) (c : Canvas)
    (frames : List GifFrame) (W H width alphaThreshold : Nat) :
    List (List (List Char)) :=
  match frames with
  | [] => []
  | f :: rest =>
    let c1 := drawFrame c f
    let ascii := imageDataToAscii resample (canvasImageData c1 W H) width alphaThreshold
    ascii :: decodeLoop resample (disposeFrame c1 f) rest W H width alphaThreshold

/-- `decodeGifFromBytes` after the external decoder has produced the patch
list: run the frame loop over a canvas of the logical dimensions,
initialized fully transparent (App.tsx 91–123). -/
def decodeGifFromBytes (resample : ImageData → Nat → Nat → Nat → Nat)
    (frames : List GifFrame) (W H width alphaThreshold : Nat) :
    List (List (List Char)) :=
  decodeLoop resample (fun _ _ => RGBA.transparent) frames W H width alphaThreshold

lemma decodeLoop_length (resample : ImageData → Nat → Nat → Nat → Nat)
    (c : Canvas) (frames : List GifFrame) (W H width t : Nat) :
    (decodeLoop resample c frames W H width t).length = frames.length := by
  induction frames generalizing c with
  | nil => rfl
  | cons f rest ih => simp [decodeLoop, ih]

lemma decodeLoop_append (resample : ImageData → Nat → Nat → Nat → Nat)
    (c : Canvas) (fs gs : List GifFrame) (W H width t : Nat) :
    decodeLoop resample c (fs ++ gs) W H width t =
      decodeLoop resample c fs W H width t ++
      decodeLoop resample (fs.foldl (fun acc f => disposeFrame (drawFrame acc f) f) c)
        gs W H width t := by
  induction fs generalizing c with
  | nil => rfl
  | cons f rest ih => simp [decodeLoop, ih, List.foldl_cons]

/-- C1: in each iteration of the frame loop the emitted grid is computed
from the full-canvas snapshot taken after the patch write and before
disposal; for disposal policy 2 the canvas passed to the next iteration is
transparent exactly on the patch rectangle and agrees with the post-write
canvas everywhere else. -/
theorem decode_step_snapshot_before_disposal
    (resample : ImageData → Nat → Nat → Nat → Nat) (c : Canvas)
    (f : GifFrame) (rest : List GifFrame) (W H width t x y : Nat)
    (h2 : f.disposalType = 2) :
    (decodeLoop resample c (f :: rest) W H width t).head? =
      some (imageDataToAscii resample (canvasImageData (drawFrame c f) W H) width t) ∧
    (decodeLoop resample c (f :: rest) W H width t).tail =
      decodeLoop resample (disposeFrame (drawFrame c f) f) rest W H width t ∧
    disposeFrame (drawFrame c f) f x y =
      (if inRect f.dims x y then RGBA.transparent else drawFrame c f x y) := by
  refine ⟨rfl, rfl, ?_⟩
  unfold disposeFrame
  rw [if_pos h2]
  rfl

/-- A resampling function for concrete witnesses: every byte zero. -/
def resample0 : ImageData → Nat → Nat → Nat → Nat := fun _ _ _ _ => 0

/-- A concrete opaque 2×2 patch frame at offset (1, 1) with disposal 2. -/
def frameD2 : GifFrame := ⟨some (fun _ => 255), ⟨2, 2, 1, 1⟩, 2⟩

/-- An all-transparent canvas for concrete witnesses. -/
def canvas0 : Canvas := fun _ _ => RGBA.transparent

/-- Witness for `decode_step_snapshot_before_disposal` at a concrete frame,
canvas and coordinate. -/
theorem decode_step_snapshot_before_disposal_witness :
    frameD2.disposalType = 2 ∧
    ((decodeLoop resample0 canvas0 [frameD2] 4 4 4 16).head? =
      some (imageDataToAscii resample0 (canvasImageData (drawFrame canvas0 frameD2) 4 4) 4 16) ∧
    (decodeLoop resample0 canvas0 [frameD2] 4 4 4 16).tail =
      decodeLoop resample0 (disposeFrame (drawFrame canvas0 frameD2) frameD2) [] 4 4 4 16 ∧
    disposeFrame (drawFrame canvas0 frameD2) frameD2 1 2 =
      (if inRect frameD2.dims 1 2 then RGBA.transparent
       else drawFrame canvas0 frameD2 1 2)) :=
  ⟨rfl, decode_step_snapshot_before_disposal resample0 canvas0 frameD2 [] 4 4 4 16 1 2 rfl⟩

/-- C2: the assembler yields one grid per input patch frame in order: the
output length equals the input length, the empty input gives the empty
sequence, and the first `fs.length` outputs of any extended input `fs ++ gs`
coincide with the outputs for `fs` alone, so output `i` depends only on
patches 0..i. -/
theorem assembler_length_prefix (resample : ImageData → Nat → Nat → Nat → Nat)
    (W H width t : Nat) (fs gs : List GifFrame) :
    (decodeGifFromBytes resample fs W H width t).length = fs.length ∧
    decodeGifFromBytes resample [] W H width t = [] ∧
    (decodeGifFromBytes resample (fs ++ gs) W H width t).take fs.length =
      decodeGifFromBytes resample fs W H width t := by
  refine ⟨decodeLoop_length resample _ fs W H width t, rfl, ?_⟩
  unfold decodeGifFromBytes
  rw [decodeLoop_append]
  rw [List.take_left' (decodeLoop_length resample _ fs W H width t)]

/-- C6: a frame tagged with disposal policy 3 produces, from any canvas,
exactly the same loop output and the same disposed canvas as the identical
frame tagged with policy 2: both clear the patch rectangle. -/
theorem disposal3_matches_disposal2 (resample : ImageData → Nat → Nat → Nat → Nat)
    (c : Canvas) (f : GifFrame) (rest : List GifFrame) (W H width t : Nat) :
    decodeLoop resample c ({ f with disposalType := 3 } :: rest) W H width t =
      decodeLoop resample c ({ f with disposalType := 2 } :: rest) W H width t ∧
    disposeFrame c { f with disposalType := 3 } =
      disposeFrame c { f with disposalType := 2 } := by
  constructor
  · simp [decodeLoop, drawFrame, disposeFrame]
  · simp [disposeFrame]

-- Grid resampler dimensions (C4).

/-- C4 (amended): for a source raster of positive width and a positive
output width `W`, the `getImageData` call succeeds and the resampler
produces exactly `max 1 (round((h / w) × W × 0.5))` rows — a computed
height of 0 is floored to 1 — every row of length exactly `W`.  A zero `W`
is not floored to 1: the code instead throws (see
`resampler_width_zero_throws`). -/
theorem resampler_grid_dims (resample : ImageData → Nat → Nat → Nat → Nat)
    (img : ImageData) (W t : Nat) (hw : 0 < img.width) (hW : 0 < W) :
    imageDataToAsciiChecked resample img W t =
      Except.ok (imageDataToAscii resample img W t) ∧
    (imageDataToAscii resample img W t).length =
      max 1 (round ((img.height : ℚ) / (img.width : ℚ) * (W : ℚ) * (1 / 2 : ℚ))).toNat ∧
    (∀ row ∈ imageDataToAscii resample img W t, row.length = W) ∧
    1 ≤ (imageDataToAscii resample img W t).length := by
  refine ⟨?_, ?_, ?_, ?_⟩
  · have hH : 1 ≤ max 1 ((round ((img.height : ℚ) / (img.width : ℚ) *
        (W : ℚ) * (1 / 2 : ℚ))).toNat) := Nat.le_max_left _ _
    simp only [imageDataToAsciiChecked]
    rw [if_neg (by omega)]
  · simp [imageDataToAscii]
  · intro row hrow
    unfold imageDataToAscii at hrow
    simp only [List.mem_map] at hrow
    obtain ⟨y, _, hy⟩ := hrow
    simp [← hy]
  · simp [imageDataToAscii]

/-- Witness for `resampler_grid_dims` on a 3×2 raster at output width 4. -/
theorem resampler_grid_dims_witness :
    0 < (⟨3, 2, fun _ => 0⟩ : ImageData).width ∧ 0 < 4 ∧
    (imageDataToAsciiChecked resample0 ⟨3, 2, fun _ => 0⟩ 4 16 =
      Except.ok (imageDataToAscii resample0 ⟨3, 2, fun _ => 0⟩ 4 16) ∧
    (imageDataToAscii resample0 ⟨3, 2, fun _ => 0⟩ 4 16).length =
      max 1 (round (((⟨3, 2, fun _ => 0⟩ : ImageData).height : ℚ) /
        ((⟨3, 2, fun _ => 0⟩ : ImageData).width : ℚ) * (4 : ℚ) * (1 / 2 : ℚ))).toNat ∧
    (∀ row ∈ imageDataToAscii resample0 ⟨3, 2, fun _ => 0⟩ 4 16, row.length = 4) ∧
    1 ≤ (imageDataToAscii resample0 ⟨3, 2, fun _ => 0⟩ 4 16).length) :=
  ⟨by decide, by decide,
    resampler_grid_dims resample0 ⟨3, 2, fun _ => 0⟩ 4 16 (by decide) (by decide)⟩

/-- A concrete 1×1 opaque source raster. -/
def img1 : ImageData := ⟨1, 1, fun _ => 255⟩

/-- Counterexample to C4 as stated: at output width `W = 0` the code does
not floor `W` to 1 — on a 1×1 source the computed height is 1, and
`ctx.getImageData(0, 0, 0, 1)` throws `IndexSizeError`, so the call
terminates exceptionally and no grid is produced at all, contradicting the
claimed flooring of `W` to 1. -/
theorem resampler_width_zero_throws :
    imageDataToAsciiChecked resample0 img1 0 16 = Except.error "IndexSizeError" := by
  simp [imageDataToAsciiChecked]

-- Playback state (C7, C9).

/-- The playback-relevant React state of `App`: the installed animation
sequence, the current frame index, the running flag and the target fps. -/
structure AppState where
  frames : Option (List (List (List Char)))
  index : Nat
  playing : Bool
  fps : Nat

/-- The state update performed at the end of `decodeGifFromBytes`
(App.tsx 124–125): `setFrames(asciiFrames); setIndex(0);`.  No other state
is written there. -/
def installSequence (s : AppState) (new : List (List (List Char))) : AppState :=
  { s with frames := some new, index := 0 }

/-- C7 (amended): installing a newly assembled sequence stores it and resets
the playback index to 0, but leaves the running flag unchanged — the code
never writes `playing` when switching sequences, so playback is not
stopped. -/
theorem install_sequence_resets_index (s : AppState)
    (new : List (List (List Char))) :
    (installSequence s new).index = 0 ∧
    (installSequence s new).frames = some new ∧
    (installSequence s new).playing = s.playing :=
  ⟨rfl, rfl, rfl⟩

/-- Counterexample to C7 as stated: from a playing state, installing a new
sequence does not make the running flag false, so "index reset to 0 and
playback stopped" fails. -/
theorem install_sequence_keeps_playing :
    ¬ ((installSequence ⟨none, 3, true, 12⟩ []).index = 0 ∧
       (installSequence ⟨none, 3, true, 12⟩ []).playing = false) := by
  decide

/-- The interval callback of the playback clock (App.tsx line 70):
`setIndex((i) => (i + 1) % frames.length)`. -/
def clockAdvance (i N : Nat) : Nat := (i + 1) % N

/-- The Next button handler (App.tsx line 211): `(i + 1) % frames.length`. -/
def seekNext (i N : Nat) : Nat := (i + 1) % N

/-- The Prev button handler (App.tsx line 208):
`(i - 1 + frames.length) % frames.length`, computed in ℤ as JavaScript
does.  JavaScript `%` is the truncated remainder, which agrees with `ℤ`'s
Euclidean `%` here because for N ≥ 1 the dividend i − 1 + N is
nonnegative. -/
def seekPrev (i N : Nat) : ℤ := ((i : ℤ) - 1 + (N : ℤ)) % (N : ℤ)

/-- C9: for a sequence of length N > 0 each index-mutating operation keeps
the index in [0, N): the clock advance and forward seek both map i to
(i + 1) mod N, the backward seek maps i to (i − 1 + N) mod N, and seeking
back from 0 wraps to N − 1.  None of these reads the running flag. -/
theorem playback_index_ops (i N : Nat) (hN : 0 < N) (hi : i < N) :
    clockAdvance i N = (i + 1) % N ∧ clockAdvance i N < N ∧
    seekNext i N = (i + 1) % N ∧ seekNext i N < N ∧
    seekPrev i N = ((i : ℤ) - 1 + (N : ℤ)) % (N : ℤ) ∧
    0 ≤ seekPrev i N ∧ seekPrev i N < N ∧
    seekPrev 0 N = (N : ℤ) - 1 := by
  have hNz : (N : ℤ) ≠ 0 := by exact_mod_cast hN.ne'
  have hNpos : (0 : ℤ) < N := by exact_mod_cast hN
  refine ⟨rfl, Nat.mod_lt _ hN, rfl, Nat.mod_lt _ hN, rfl,
    Int.emod_nonneg _ hNz, Int.emod_lt_of_pos _ hNpos, ?_⟩
  unfold seekPrev
  have harg : ((0 : Nat) : ℤ) - 1 + (N : ℤ) = (N : ℤ) - 1 := by ring
  rw [harg, Int.emod_eq_of_lt (by omega) (by omega)]

/-- Witness for `playback_index_ops` at index 2 of a 5-frame sequence. -/
theorem playback_index_ops_witness :
    0 < 5 ∧ 2 < 5 ∧
    (clockAdvance 2 5 = (2 + 1) % 5 ∧ clockAdvance 2 5 < 5 ∧
    seekNext 2 5 = (2 + 1) % 5 ∧ seekNext 2 5 < 5 ∧
    seekPrev 2 5 = ((2 : ℤ) - 1 + (5 : ℤ)) % (5 : ℤ) ∧
    0 ≤ seekPrev 2 5 ∧ seekPrev 2 5 < 5 ∧
    seekPrev 0 5 = (5 : ℤ) - 1) :=
  ⟨by decide, by decide, playback_index_ops 2 5 (by decide) (by decide)⟩
